import Mathlib

/-!
# Shallow embedding of the notes-web backend

This file embeds the route handlers of `backend/src/index.ts` (a Hono +
Prisma notes application) as pure Lean functions over an explicit database
state, and proves the specification claims about them.

Modelling conventions:
* Times are naturals (milliseconds since epoch); `new Date()` becomes an
  explicit `now : Time` parameter, and Prisma's `expiresAt: { gt: new Date() }`
  becomes `now < expiresAt`.
* Database tables are lists of records; Prisma `findFirst` is `List.find?`,
  `findMany`/`deleteMany` are `List.filter`, `update`/`updateMany` are
  `List.map`, `create` appends a record whose generated id is passed in as a
  parameter.
* `crypto.randomInt` and `jwt.sign` are external: the random draw and the
  token-generation function are parameters of the handlers that use them.
* The transactional email provider is external: whether the send succeeds is
  a `Bool` parameter (`sendOTPEmail` throws on failure, which the handlers
  catch and turn into a 500 response after the database writes already ran).
-/

namespace NotesWeb

/-- Milliseconds since epoch, as used by `Date.now()`. -/
abbrev Time := Nat

/-- The `otp_type` enum of the Prisma schema. -/
inductive OtpType where
  | SIGNUP
  | SIGNIN
  | PASSWORD_RESET
deriving DecidableEq, Repr

/-- The JSON blob stored in `otps.signup_data` by `POST /api/signup`. -/
structure SignupData where
  name : String
  email : String
  dateOfBirth : String
deriving DecidableEq, Repr

/-- A row of the `users` table. -/
structure User where
  id : Nat
  email : String
  name : String
  dateOfBirth : String
  verified : Bool
  isActive : Bool
deriving DecidableEq, Repr

/-- A row of the `otps` table. -/
structure Otp where
  id : Nat
  code : String
  email : String
  otype : OtpType
  expiresAt : Time
  verified : Bool
  attempts : Nat
  userId : Option Nat
  signupData : Option SignupData
deriving DecidableEq, Repr

/-- A row of the `sessions` table. -/
structure Session where
  id : Nat
  userId : Nat
  token : String
  expiresAt : Time
  isActive : Bool
deriving DecidableEq, Repr

/-- A row of the `notes` table. -/
structure Note where
  id : Nat
  title : String
  content : String
  userId : Nat
  createdAt : Time
deriving DecidableEq, Repr

/-- The whole database state. -/
structure DB where
  users : List User
  otps : List Otp
  sessions : List Session
  notes : List Note
deriving DecidableEq, Repr

/-- An HTTP JSON response, reduced to the fields the claims talk about:
the status code, the `error` field and the `token` field of the body. -/
structure Resp where
  status : Nat
  error : Option String
  token : Option String
deriving DecidableEq, Repr

/-- A success response (`c.json({...})` defaults to status 200). -/
def Resp.ok (token : Option String) : Resp := ⟨200, none, token⟩

/-- An error response `c.json({ error: msg }, status)`. -/
def Resp.err (status : Nat) (msg : String) : Resp := ⟨status, some msg, none⟩

/-! ### JS string primitives

The handlers use `toLowerCase`, `trim`, `startsWith` and `substring` from
the JS string library. They are embedded here as functions on the character
list of the string (ASCII lowercasing, whitespace trimming at both ends),
so that concrete instances evaluate inside the kernel. -/

/-- JS `s.toLowerCase()` (on the ASCII range the handlers use). -/
def jsToLower (s : String) : String := ⟨s.data.map Char.toLower⟩

/-- JS `s.trim()`: strip whitespace from both ends. -/
def jsTrim (s : String) : String :=
  ⟨((s.data.dropWhile Char.isWhitespace).reverse.dropWhile
      Char.isWhitespace).reverse⟩

/-- JS `s.startsWith(pre)`. -/
def jsStartsWith (s pre : String) : Bool :=
  s.data.take pre.data.length == pre.data

/-- JS `s.substring(n)`: the suffix from character index `n`. -/
def jsSubstringFrom (s : String) (n : Nat) : String := ⟨s.data.drop n⟩

/-- `email.toLowerCase().trim()`, the normalization every handler applies. -/
def normEmail (email : String) : String := jsTrim (jsToLower email)

/-! ## Notes CRUD (`/api/notes`), behind `authMiddleware` -/

/-- `GET /api/notes`: `prisma.note.findMany({ where: { userId }, orderBy:
{ createdAt: desc } })` with the requester's id from the middleware. -/
def getNotes (db : DB) (userId : Nat) : List Note :=
  ((db.notes.filter (fun n => n.userId == userId)).mergeSort
    (fun a b => b.createdAt ≤ a.createdAt))

/-- JS truthiness of the `title` field of the request body: absent and the
empty string are falsy. -/
def titleTruthy : Option String → Bool
  | none => false
  | some t => t ≠ ""

/-- The update applied by `prisma.note.update` in `PUT /api/notes/:id`:
`...(title && { title: title.trim() })`,
`...(content !== undefined && { content: content.trim() })`. -/
def applyNoteUpdate (title content : Option String) (n : Note) : Note :=
  let n1 := match title with
    | some t => if t ≠ "" then { n with title := jsTrim t } else n
    | none => n
  match content with
  | some c => { n1 with content := jsTrim c }
  | none => n1

/-- `PUT /api/notes/:id`, after `authMiddleware` has set `userId`. -/
def putNote (db : DB) (userId : Nat) (noteId : Nat)
    (title content : Option String) : DB × Resp :=
  if ¬ titleTruthy title ∧ content = none then
    (db, Resp.err 400 "Title or content is required")
  else
    match db.notes.find? (fun n => n.id == noteId && n.userId == userId) with
    | none => (db, Resp.err 404 "Note not found")
    | some _ =>
      ({ db with notes := db.notes.map (fun n =>
          if n.id == noteId then applyNoteUpdate title content n else n) },
       Resp.ok none)

/-- `DELETE /api/notes/:id`, after `authMiddleware` has set `userId`. -/
def deleteNote (db : DB) (userId : Nat) (noteId : Nat) : DB × Resp :=
  match db.notes.find? (fun n => n.id == noteId && n.userId == userId) with
  | none => (db, Resp.err 404 "Note not found")
  | some _ =>
    ({ db with notes := db.notes.filter (fun n => ¬ n.id == noteId) },
     Resp.ok none)

end NotesWeb

namespace NotesWeb

/-! ## C1: notes CRUD is per-user -/

/-- The `notes` table has unique primary keys. -/
abbrev NotesPkUnique (db : DB) : Prop :=
  ∀ n1 ∈ db.notes, ∀ n2 ∈ db.notes, n1.id = n2.id → n1 = n2

/-- If the note with id `noteId` belongs to another user, the ownership
lookup `findFirst({ where: { id: noteId, userId } })` finds nothing. -/
theorem find_owned_eq_none (db : DB) (uid noteId : Nat) (m : Note)
    (hpk : NotesPkUnique db)
    (hm : m ∈ db.notes) (hid : m.id = noteId) (hown : m.userId ≠ uid) :
    db.notes.find? (fun n => n.id == noteId && n.userId == uid) = none := by
  rw [List.find?_eq_none]
  intro n hn hpn
  have h1 : n.id = noteId ∧ n.userId = uid := by simpa using hpn
  have hnm : n = m := hpk n hn m hm (h1.1.trans hid.symm)
  exact hown (hnm ▸ h1.2)

/-- C1: Notes CRUD is per-user: for every authenticated request,
GET /api/notes returns exactly the notes whose userId is the requester's id,
and PUT /api/notes/:id and DELETE /api/notes/:id applied to a note id owned
by a different user return 404 and leave every note unchanged. -/
theorem notes_crud_is_per_user (db : DB) (uid noteId : Nat)
    (title content : Option String) (m n : Note)
    (hpk : NotesPkUnique db)
    (hm : m ∈ db.notes) (hid : m.id = noteId) (hown : m.userId ≠ uid)
    (hbody : titleTruthy title = true ∨ content ≠ none) :
    (n ∈ getNotes db uid ↔ n ∈ db.notes ∧ n.userId = uid) ∧
    putNote db uid noteId title content = (db, Resp.err 404 "Note not found") ∧
    deleteNote db uid noteId = (db, Resp.err 404 "Note not found") := by
  have hfind := find_owned_eq_none db uid noteId m hpk hm hid hown
  refine ⟨?_, ?_, ?_⟩
  · unfold getNotes
    rw [List.Perm.mem_iff (List.mergeSort_perm _ _), List.mem_filter]
    simp
  · unfold putNote
    rw [if_neg, hfind]
    rcases hbody with h | h
    · intro hc
      rw [h] at hc
      exact hc.1 rfl
    · intro hc
      exact h hc.2
  · unfold deleteNote
    rw [hfind]

/-- Witness for C1 at a concrete state: two notes, one owned by user 2
(id 1) and one owned by user 5 (id 3); requester is user 2 acting on
note 3. -/
theorem notes_crud_is_per_user_witness :
    (⟨3, "t", "c", 5, 4⟩ : Note) ∈ (DB.mk [] [] []
        [⟨1, "a", "b", 2, 9⟩, ⟨3, "t", "c", 5, 4⟩]).notes ∧
    ((⟨1, "a", "b", 2, 9⟩ : Note) ∈
        getNotes (DB.mk [] [] [] [⟨1, "a", "b", 2, 9⟩, ⟨3, "t", "c", 5, 4⟩]) 2 ↔
      (⟨1, "a", "b", 2, 9⟩ : Note) ∈ (DB.mk [] [] []
        [⟨1, "a", "b", 2, 9⟩, ⟨3, "t", "c", 5, 4⟩]).notes ∧
        (⟨1, "a", "b", 2, 9⟩ : Note).userId = 2) ∧
    putNote (DB.mk [] [] [] [⟨1, "a", "b", 2, 9⟩, ⟨3, "t", "c", 5, 4⟩]) 2 3
        (some "x") none =
      (DB.mk [] [] [] [⟨1, "a", "b", 2, 9⟩, ⟨3, "t", "c", 5, 4⟩],
        Resp.err 404 "Note not found") ∧
    deleteNote (DB.mk [] [] [] [⟨1, "a", "b", 2, 9⟩, ⟨3, "t", "c", 5, 4⟩]) 2 3 =
      (DB.mk [] [] [] [⟨1, "a", "b", 2, 9⟩, ⟨3, "t", "c", 5, 4⟩],
        Resp.err 404 "Note not found") := by
  have h := notes_crud_is_per_user
    (DB.mk [] [] [] [⟨1, "a", "b", 2, 9⟩, ⟨3, "t", "c", 5, 4⟩]) 2 3
    (some "x") none ⟨3, "t", "c", 5, 4⟩ ⟨1, "a", "b", 2, 9⟩
    (by decide) (by decide) (by decide) (by decide) (Or.inl (by decide))
  exact ⟨by decide, h.1, h.2.1, h.2.2⟩

/-! ## Auth middleware and logout -/

/-- Result of `authMiddleware`: either the requester's `userId` is stored in
the context and the chain continues, or a JSON error response is returned. -/
inductive AuthResult where
  | ok : Nat → AuthResult
  | err : Nat → String → AuthResult
deriving DecidableEq, Repr

/-- `authMiddleware`. `jwtVerify` embeds `verifyToken` (the JWT signing
primitive is external, out of scope): it returns the `userId` payload of a
valid session-typed token, or `none`. -/
def authMiddleware (jwtVerify : String → Option Nat) (db : DB) (now : Time)
    (authHeader : Option String) : AuthResult :=
  match authHeader with
  | none => .err 401 "Unauthorized"
  | some h =>
    if ¬ jsStartsWith h "Bearer " then .err 401 "Unauthorized"
    else
      let token := jsSubstringFrom h 7
      match jwtVerify token with
      | none => .err 401 "Invalid token"
      | some uid =>
        match db.sessions.find? (fun s =>
            s.token == token && s.isActive && now < s.expiresAt) with
        | none => .err 401 "Session expired"
        | some _ => .ok uid

/-- `POST /api/logout`: `prisma.session.updateMany({ where: { token },
data: { isActive: false } })`. JS falsy check on the body's `token` field
rejects the empty string with 400. -/
def logout (db : DB) (token : String) : DB × Resp :=
  if token = "" then (db, Resp.err 400 "Token is required")
  else
    ({ db with sessions := db.sessions.map (fun s =>
        if s.token == token then { s with isActive := false } else s) },
     Resp.ok none)

/-! ## C5: session lifecycle on logout -/

/-- C5: after POST /api/logout with a token, that token's session rows have
isActive set to false; every subsequent notes request bearing that token is
rejected by the auth middleware with 401; sessions with other tokens are
unaffected. -/
theorem logout_deactivates_token (db : DB) (t : String) (now : Time)
    (jwtVerify : String → Option Nat) (hs : String)
    (ht : t ≠ "")
    (hbearer : jsStartsWith hs "Bearer " = true → jsSubstringFrom hs 7 = t) :
    (∀ s ∈ (logout db t).1.sessions, s.token = t → s.isActive = false) ∧
    (∀ s : Session, s.token ≠ t →
      (s ∈ (logout db t).1.sessions ↔ s ∈ db.sessions)) ∧
    (∃ msg, authMiddleware jwtVerify (logout db t).1 now (some hs) =
      .err 401 msg) := by
  have hdb1 : (logout db t).1 = { db with sessions := db.sessions.map (fun s =>
      if s.token == t then { s with isActive := false } else s) } := by
    unfold logout
    rw [if_neg ht]
  refine ⟨?_, ?_, ?_⟩
  · intro s hsmem hst
    rw [hdb1] at hsmem
    simp only [List.mem_map] at hsmem
    obtain ⟨s0, _, hfs⟩ := hsmem
    by_cases h0 : s0.token = t
    · rw [if_pos (by simpa using h0)] at hfs
      rw [← hfs]
    · rw [if_neg (by simpa using h0)] at hfs
      exact absurd (hfs ▸ hst) h0
  · intro s hst
    rw [hdb1]
    simp only [List.mem_map]
    constructor
    · rintro ⟨s0, hs0, hfs⟩
      by_cases h0 : s0.token = t
      · rw [if_pos (by simpa using h0)] at hfs
        exact absurd (hfs ▸ h0 : s.token = t) hst
      · rw [if_neg (by simpa using h0)] at hfs
        exact hfs ▸ hs0
    · intro hmem
      exact ⟨s, hmem, by rw [if_neg (by simpa using hst)]⟩
  · by_cases hb : jsStartsWith hs "Bearer " = true
    · have htok := hbearer hb
      cases hjwt : jwtVerify t with
      | none =>
        refine ⟨"Invalid token", ?_⟩
        simp [authMiddleware, hb, htok, hjwt]
      | some uid =>
        have hfind : (logout db t).1.sessions.find? (fun s =>
            s.token == t && s.isActive && decide (now < s.expiresAt)) = none := by
          rw [List.find?_eq_none]
          intro s hsmem hp
          rw [hdb1] at hsmem
          simp only [List.mem_map] at hsmem
          obtain ⟨s0, _, hfs⟩ := hsmem
          simp only [Bool.and_eq_true, beq_iff_eq, decide_eq_true_eq] at hp
          by_cases h0 : s0.token = t
          · rw [if_pos (by simpa using h0)] at hfs
            have hact : s.isActive = false := by rw [← hfs]
            rw [hp.1.2] at hact
            exact absurd hact (by simp)
          · rw [if_neg (by simpa using h0)] at hfs
            exact h0 (by rw [hfs]; exact hp.1.1)
        refine ⟨"Session expired", ?_⟩
        simp [authMiddleware, hb, htok, hjwt, hfind]
    · refine ⟨"Unauthorized", ?_⟩
      simp [authMiddleware, hb]

/-- Witness for C5: one active session for "tok1" and one for "tok2";
logout of "tok1", then a request with header "Bearer tok1". -/
theorem logout_deactivates_token_witness :
    ("tok1" ≠ "" ∧
      (jsStartsWith "Bearer tok1" "Bearer " = true →
        jsSubstringFrom "Bearer tok1" 7 = "tok1")) ∧
    ((∀ s ∈ (logout (DB.mk [] []
        [⟨1, 1, "tok1", 100, true⟩, ⟨2, 2, "tok2", 100, true⟩] []) "tok1").1.sessions,
        s.token = "tok1" → s.isActive = false) ∧
    (∀ s : Session, s.token ≠ "tok1" →
      (s ∈ (logout (DB.mk [] []
        [⟨1, 1, "tok1", 100, true⟩, ⟨2, 2, "tok2", 100, true⟩] []) "tok1").1.sessions ↔
       s ∈ (DB.mk [] []
        [⟨1, 1, "tok1", 100, true⟩, ⟨2, 2, "tok2", 100, true⟩] []).sessions)) ∧
    (∃ msg, authMiddleware (fun _ => some 1) (logout (DB.mk [] []
        [⟨1, 1, "tok1", 100, true⟩, ⟨2, 2, "tok2", 100, true⟩] []) "tok1").1 0
        (some "Bearer tok1") = .err 401 msg)) :=
  ⟨⟨by decide, by decide⟩,
   logout_deactivates_token
     (DB.mk [] [] [⟨1, 1, "tok1", 100, true⟩, ⟨2, 2, "tok2", 100, true⟩] [])
     "tok1" 0 (fun _ => some 1) "Bearer tok1" (by decide) (by decide)⟩

/-! ## OTP generation and issuance -/

/-- Little-endian decimal digits of `n`, with explicit fuel so that concrete
instances reduce inside the kernel. -/
def decDigitsAux : Nat → Nat → List Nat
  | 0, _ => []
  | _ + 1, 0 => []
  | fuel + 1, n + 1 => (n + 1) % 10 :: decDigitsAux fuel ((n + 1) / 10)

/-- Little-endian decimal digits of `n` (`Nat.digits 10 n`, see
`decDigits_eq`). -/
def decDigits (n : Nat) : List Nat := decDigitsAux n n

theorem decDigitsAux_eq (fuel n : Nat) (h : n ≤ fuel) :
    decDigitsAux fuel n = Nat.digits 10 n := by
  induction fuel generalizing n with
  | zero =>
    have h0 : n = 0 := Nat.le_zero.mp h
    subst h0
    simp [decDigitsAux]
  | succ f ih =>
    cases n with
    | zero => simp [decDigitsAux]
    | succ m =>
      rw [decDigitsAux, Nat.digits_def' (by norm_num : 1 < 10) (Nat.succ_pos m)]
      congr 1
      exact ih _ (Nat.le_of_lt_succ (Nat.lt_of_lt_of_le
        (Nat.div_lt_self (Nat.succ_pos m) (by norm_num)) h))

theorem decDigits_eq (n : Nat) : decDigits n = Nat.digits 10 n :=
  decDigitsAux_eq n n le_rfl

/-- `generateOTP`: `crypto.randomInt(100000, 999999).toString()`. The random
draw `r` is passed in (Node's `randomInt(min, max)` guarantees
`min ≤ r < max`); `.toString()` renders `r` in decimal. -/
def generateOTP (r : Nat) : String :=
  ⟨(decDigits r).reverse.map (fun d => Char.ofNat (48 + d))⟩

/-- `cleanupExpiredOtps`: `prisma.otp.deleteMany({ where: { expiresAt:
{ lt: new Date() } } })`. -/
def cleanupExpiredOtps (db : DB) (now : Time) : DB :=
  { db with otps := db.otps.filter (fun o => ¬ o.expiresAt < now) }

/-- One ORM call issued by a route handler. `tx` stands for the single
`prisma.$transaction` wrapper (a multi-statement transaction). -/
inductive OrmCall where
  | otpDeleteMany
  | otpFindFirst
  | otpCreate
  | otpUpdate
  | userFindUnique
  | sessionCreate
  | tx
deriving DecidableEq, Repr

/-- Whether the call is the multi-statement transaction wrapper. -/
def OrmCall.transactional : OrmCall → Bool
  | .tx => true
  | _ => false

/-- `POST /api/signup`. JS falsy check rejects a missing/empty field. The
third component is the sequence of ORM calls the handler issued. `code` is
this request's `generateOTP` result, `newOtpId` the id Prisma generates for
the created row, `emailOk` whether the external email send succeeds (on
failure the thrown error is caught after the writes already ran). -/
def signup (db : DB) (name email dateOfBirth : String) (code : String)
    (newOtpId : Nat) (now : Time) (emailOk : Bool) :
    DB × Resp × List OrmCall :=
  if name = "" ∨ email = "" ∨ dateOfBirth = "" then
    (db, Resp.err 400 "Name, email, and date of birth are required", [])
  else
    let db1 := cleanupExpiredOtps db now
    let e := normEmail email
    match db1.users.find? (fun u => u.email == e) with
    | some _ =>
      (db1, Resp.err 409 "User already exists",
       [.otpDeleteMany, .userFindUnique])
    | none =>
      let db2 := { db1 with otps := db1.otps.filter (fun o =>
          ¬ (o.email == e && o.otype == OtpType.SIGNUP)) }
      let newOtp : Otp := ⟨newOtpId, code, e, OtpType.SIGNUP,
          now + 10 * 60 * 1000, false, 0, none, some ⟨jsTrim name, e, dateOfBirth⟩⟩
      let db3 := { db2 with otps := db2.otps ++ [newOtp] }
      (db3,
       if emailOk then Resp.ok none
       else Resp.err 500 "Signup failed. Please try again.",
       [.otpDeleteMany, .userFindUnique, .otpDeleteMany, .otpCreate])

/-- `POST /api/signin` (OTP issuance). Parameters as in `signup`. -/
def signin (db : DB) (email : String) (code : String) (newOtpId : Nat)
    (now : Time) (emailOk : Bool) : DB × Resp × List OrmCall :=
  if email = "" then (db, Resp.err 400 "Email is required", [])
  else
    let db1 := cleanupExpiredOtps db now
    let e := normEmail email
    match db1.users.find? (fun u => u.email == e) with
    | none =>
      (db1, Resp.err 404 "User not found", [.otpDeleteMany, .userFindUnique])
    | some user =>
      if user.verified = false then
        (db1, Resp.err 400 "Please complete signup verification first",
         [.otpDeleteMany, .userFindUnique])
      else if user.isActive = false then
        (db1, Resp.err 403 "Account is deactivated",
         [.otpDeleteMany, .userFindUnique])
      else
        let db2 := { db1 with otps := db1.otps.filter (fun o =>
            ¬ (o.email == e && o.otype == OtpType.SIGNIN)) }
        let newOtp : Otp := ⟨newOtpId, code, e, OtpType.SIGNIN,
            now + 10 * 60 * 1000, false, 0, some user.id, none⟩
        let db3 := { db2 with otps := db2.otps ++ [newOtp] }
        (db3,
         if emailOk then Resp.ok none else Resp.err 500 "Failed to send OTP",
         [.otpDeleteMany, .userFindUnique, .otpDeleteMany, .otpCreate])

/-- `POST /api/signin/resend`: same flow as `POST /api/signin` with
different response messages. -/
def signinResend (db : DB) (email : String) (code : String) (newOtpId : Nat)
    (now : Time) (emailOk : Bool) : DB × Resp × List OrmCall :=
  if email = "" then (db, Resp.err 400 "Email is required", [])
  else
    let db1 := cleanupExpiredOtps db now
    let e := normEmail email
    match db1.users.find? (fun u => u.email == e) with
    | none =>
      (db1, Resp.err 404 "User not found", [.otpDeleteMany, .userFindUnique])
    | some user =>
      if user.verified = false then
        (db1, Resp.err 400 "Please complete signup verification first",
         [.otpDeleteMany, .userFindUnique])
      else if user.isActive = false then
        (db1, Resp.err 403 "Account is deactivated",
         [.otpDeleteMany, .userFindUnique])
      else
        let db2 := { db1 with otps := db1.otps.filter (fun o =>
            ¬ (o.email == e && o.otype == OtpType.SIGNIN)) }
        let newOtp : Otp := ⟨newOtpId, code, e, OtpType.SIGNIN,
            now + 10 * 60 * 1000, false, 0, some user.id, none⟩
        let db3 := { db2 with otps := db2.otps ++ [newOtp] }
        (db3,
         if emailOk then Resp.ok none else Resp.err 500 "Failed to resend OTP",
         [.otpDeleteMany, .userFindUnique, .otpDeleteMany, .otpCreate])

/-! ## OTP verification -/

/-- The `findFirst` shared by both verify endpoints: normalized email,
trimmed code, the endpoint's type, `verified: false`, unexpired. -/
def findOtp (db : DB) (email code : String) (t : OtpType) (now : Time) :
    Option Otp :=
  db.otps.find? (fun o =>
    o.email == normEmail email && o.code == jsTrim code &&
    o.otype == t && o.verified == false && decide (now < o.expiresAt))

/-- The `prisma.$transaction` of signup verification: `tx.user.create` plus
`tx.otp.update`. Either write can fail (`user.create` on the `users.email`
unique constraint, `otp.update` when no row carries the id); a failure
aborts the transaction, returning `none`, and nothing persists. -/
def txSignupVerify (db : DB) (sd : SignupData) (newUserId otpId : Nat) :
    Option (DB × User) :=
  if db.users.any (fun u => u.email == sd.email) then none
  else if db.otps.any (fun o => o.id == otpId) then
    some ({ db with
            users := db.users ++
              [⟨newUserId, sd.email, sd.name, sd.dateOfBirth, true, true⟩],
            otps := db.otps.map (fun o =>
              if o.id == otpId then
                { o with verified := true, userId := some newUserId }
              else o) },
          ⟨newUserId, sd.email, sd.name, sd.dateOfBirth, true, true⟩)
  else none

/-- `POST /api/signup/verify`. `genToken` embeds `generateToken` (the JWT
primitive is external); `newUserId`/`newSessionId` are the generated ids. -/
def signupVerify (db : DB) (email otp : String) (now : Time)
    (genToken : Nat → String) (newUserId newSessionId : Nat) : DB × Resp :=
  if email = "" ∨ otp = "" then
    (db, Resp.err 400 "Email and OTP are required")
  else
    match findOtp db email otp OtpType.SIGNUP now with
    | none => (db, Resp.err 400 "Invalid or expired OTP")
    | some r =>
      if 5 ≤ r.attempts then
        (db, Resp.err 400 "Too many attempts. Please request a new OTP.")
      else
        match r.signupData with
        | none => (db, Resp.err 400 "Invalid signup data")
        | some sd =>
          match txSignupVerify db sd newUserId r.id with
          | none => (db, Resp.err 500 "Verification failed")
          | some (db1, u) =>
            let tok := genToken u.id
            let s : Session := ⟨newSessionId, u.id, tok,
                now + 30 * 24 * 60 * 60 * 1000, true⟩
            ({ db1 with sessions := db1.sessions ++ [s] },
             Resp.ok (some tok))

/-- `POST /api/signin/verify`. `include: { user: true }` resolves the
`userId` relation against the `users` table. -/
def signinVerify (db : DB) (email otp : String) (keepLoggedIn : Bool)
    (now : Time) (genToken : Nat → String) (newSessionId : Nat) : DB × Resp :=
  if email = "" ∨ otp = "" then
    (db, Resp.err 400 "Email and OTP are required")
  else
    match findOtp db email otp OtpType.SIGNIN now with
    | none => (db, Resp.err 400 "Invalid or expired OTP")
    | some r =>
      match r.userId.bind (fun uid => db.users.find? (fun u => u.id == uid)) with
      | none =>
        ({ db with otps := db.otps.map (fun o =>
            if o.id == r.id then { o with attempts := o.attempts + 1 } else o) },
         Resp.err 400 "Invalid or expired OTP")
      | some u =>
        if 5 ≤ r.attempts then
          (db, Resp.err 400 "Too many attempts. Please request a new OTP.")
        else
          let db1 := { db with otps := db.otps.map (fun (o : Otp) =>
              if o.id == r.id then { o with verified := true } else o) }
          let tok := genToken u.id
          let exp := if keepLoggedIn then now + 30 * 24 * 60 * 60 * 1000
                     else now + 24 * 60 * 60 * 1000
          let s : Session := ⟨newSessionId, u.id, tok, exp, true⟩
          ({ db1 with sessions := db1.sessions ++ [s] },
           Resp.ok (some tok))

/-! ## C10: every generated OTP is a six-digit decimal string -/

/-- C10: `generateOTP` always returns the decimal representation of an
integer in the range produced by `crypto.randomInt(100000, 999999)`, so its
length is exactly 6 and it has no leading zero. -/
theorem generateOTP_is_six_digits (r : Nat)
    (h1 : 100000 ≤ r) (h2 : r < 999999) :
    (generateOTP r).length = 6 ∧ (generateOTP r).data.head? ≠ some '0' := by
  have hlen : (decDigits r).length = 6 := by
    rw [decDigits_eq, Nat.digits_len 10 r (by norm_num) (by omega)]
    have hlog : Nat.log 10 r = 5 :=
      Nat.log_eq_of_pow_le_of_lt_pow (by norm_num; omega) (by norm_num; omega)
    omega
  have hne : Nat.digits 10 r ≠ [] :=
    Nat.digits_ne_nil_iff_ne_zero.mpr (by omega)
  constructor
  · show ((decDigits r).reverse.map (fun d => Char.ofNat (48 + d))).length = 6
    rw [List.length_map, List.length_reverse, hlen]
  · intro hc
    have hc2 : ((decDigits r).reverse.map
        (fun d => Char.ofNat (48 + d))).head? = some '0' := hc
    rw [List.head?_map, List.head?_reverse] at hc2
    obtain ⟨d, hd, hf⟩ := Option.map_eq_some'.mp hc2
    rw [decDigits_eq, List.getLast?_eq_getLast _ hne] at hd
    have hdval := Option.some.inj hd
    have hdnz : d ≠ 0 := fun h0 =>
      Nat.getLast_digit_ne_zero 10 (by omega : r ≠ 0) (hdval.trans h0)
    have hdlt : d < 10 := by
      have hmem := hdval ▸ List.getLast_mem hne
      exact Nat.digits_lt_base (by norm_num) hmem
    interval_cases d <;> simp_all

/-- Witness for C10 at the draw `r = 123456`. -/
theorem generateOTP_is_six_digits_witness :
    (100000 ≤ 123456 ∧ 123456 < 999999) ∧
    ((generateOTP 123456).length = 6 ∧
      (generateOTP 123456).data.head? ≠ some '0') :=
  ⟨by decide, generateOTP_is_six_digits 123456 (by decide) (by decide)⟩

/-! ## C2: what a wrong code does to the attempts counter

The `findFirst` of both verify endpoints filters on the submitted code, so a
wrong code matches no record at all: `otpRecord` is `null` and, in the
signin flow, the `if (otpRecord)` guard in front of the increment is false.
The increment only runs when a record matched but has no linked user. -/

/-- C2 counterexample: a signin verification request with the wrong code
("000000" against stored "123456") for an email holding a live unverified
SIGNIN OTP leaves that OTP's attempts at 0 (the whole database unchanged)
instead of incrementing it; likewise for the signup flow. -/
theorem wrong_code_no_increment_cex :
    signinVerify (DB.mk [⟨1, "a@b.c", "A", "2000", true, true⟩]
        [⟨10, "123456", "a@b.c", OtpType.SIGNIN, 1000, false, 0, some 1, none⟩]
        [] []) "a@b.c" "000000" false 0 (fun _ => "tok") 100 =
      (DB.mk [⟨1, "a@b.c", "A", "2000", true, true⟩]
        [⟨10, "123456", "a@b.c", OtpType.SIGNIN, 1000, false, 0, some 1, none⟩]
        [] [], Resp.err 400 "Invalid or expired OTP") ∧
    signupVerify (DB.mk []
        [⟨10, "123456", "a@b.c", OtpType.SIGNUP, 1000, false, 0, none,
          some ⟨"A", "a@b.c", "2000"⟩⟩] [] [])
        "a@b.c" "000000" 0 (fun _ => "tok") 1 100 =
      (DB.mk []
        [⟨10, "123456", "a@b.c", OtpType.SIGNUP, 1000, false, 0, none,
          some ⟨"A", "a@b.c", "2000"⟩⟩] [] [],
       Resp.err 400 "Invalid or expired OTP") := by
  decide

/-- C2 (amended): a verification request (signup or signin) whose trimmed
code differs from the code of every stored OTP matches no record, is
rejected with 400 "Invalid or expired OTP", and leaves the database — in
particular every attempts counter — unchanged. -/
theorem wrong_code_leaves_db_unchanged (db : DB) (email otp : String)
    (keep : Bool) (now : Time) (gt : Nat → String) (nuid sid : Nat)
    (hemail : email ≠ "") (hotp : otp ≠ "")
    (hwrong : ∀ o ∈ db.otps, o.code ≠ jsTrim otp) :
    signinVerify db email otp keep now gt sid =
      (db, Resp.err 400 "Invalid or expired OTP") ∧
    signupVerify db email otp now gt nuid sid =
      (db, Resp.err 400 "Invalid or expired OTP") := by
  have hfind : ∀ t : OtpType, findOtp db email otp t now = none := by
    intro t
    rw [findOtp, List.find?_eq_none]
    intro o ho hp
    simp only [Bool.and_eq_true, beq_iff_eq] at hp
    exact hwrong o ho hp.1.1.1.2
  constructor
  · simp [signinVerify, hemail, hotp, hfind OtpType.SIGNIN]
  · simp [signupVerify, hemail, hotp, hfind OtpType.SIGNUP]

/-- Witness for the amended C2: a store holding one live SIGNIN OTP with
code "123456" and one live SIGNUP OTP with code "654321", queried with the
wrong code "000000". -/
theorem wrong_code_leaves_db_unchanged_witness :
    (("a@b.c" : String) ≠ "" ∧ ("000000" : String) ≠ "" ∧
      (∀ o ∈ (DB.mk [⟨1, "a@b.c", "A", "2000", true, true⟩]
          [⟨10, "123456", "a@b.c", OtpType.SIGNIN, 1000, false, 0, some 1, none⟩,
           ⟨11, "654321", "a@b.c", OtpType.SIGNUP, 1000, false, 0, none, none⟩]
          [] []).otps, o.code ≠ jsTrim "000000")) ∧
    (signinVerify (DB.mk [⟨1, "a@b.c", "A", "2000", true, true⟩]
        [⟨10, "123456", "a@b.c", OtpType.SIGNIN, 1000, false, 0, some 1, none⟩,
         ⟨11, "654321", "a@b.c", OtpType.SIGNUP, 1000, false, 0, none, none⟩]
        [] []) "a@b.c" "000000" false 0 (fun _ => "tok") 100 =
      (DB.mk [⟨1, "a@b.c", "A", "2000", true, true⟩]
        [⟨10, "123456", "a@b.c", OtpType.SIGNIN, 1000, false, 0, some 1, none⟩,
         ⟨11, "654321", "a@b.c", OtpType.SIGNUP, 1000, false, 0, none, none⟩]
        [] [], Resp.err 400 "Invalid or expired OTP") ∧
     signupVerify (DB.mk [⟨1, "a@b.c", "A", "2000", true, true⟩]
        [⟨10, "123456", "a@b.c", OtpType.SIGNIN, 1000, false, 0, some 1, none⟩,
         ⟨11, "654321", "a@b.c", OtpType.SIGNUP, 1000, false, 0, none, none⟩]
        [] []) "a@b.c" "000000" 0 (fun _ => "tok") 1 100 =
      (DB.mk [⟨1, "a@b.c", "A", "2000", true, true⟩]
        [⟨10, "123456", "a@b.c", OtpType.SIGNIN, 1000, false, 0, some 1, none⟩,
         ⟨11, "654321", "a@b.c", OtpType.SIGNUP, 1000, false, 0, none, none⟩]
        [] [], Resp.err 400 "Invalid or expired OTP")) :=
  ⟨⟨by decide, by decide, by decide⟩,
   wrong_code_leaves_db_unchanged
     (DB.mk [⟨1, "a@b.c", "A", "2000", true, true⟩]
        [⟨10, "123456", "a@b.c", OtpType.SIGNIN, 1000, false, 0, some 1, none⟩,
         ⟨11, "654321", "a@b.c", OtpType.SIGNUP, 1000, false, 0, none, none⟩]
        [] []) "a@b.c" "000000" false 0 (fun _ => "tok") 1 100
     (by decide) (by decide) (by decide)⟩

/-! ## C3: the attempt limit blocks verification -/

/-- C3: for every verification request (signup or signin) whose matched OTP
record has attempts >= 5, the request is rejected with an error and no
user, no session, and no token is created. -/
theorem attempt_limit_rejects (db : DB) (email otp : String) (keep : Bool)
    (now : Time) (gt : Nat → String) (nuid sid : Nat) (r : Otp)
    (hemail : email ≠ "") (hotp : otp ≠ "") (h5 : 5 ≤ r.attempts) :
    (findOtp db email otp OtpType.SIGNUP now = some r →
      signupVerify db email otp now gt nuid sid =
        (db, Resp.err 400 "Too many attempts. Please request a new OTP.")) ∧
    (findOtp db email otp OtpType.SIGNIN now = some r →
      (signinVerify db email otp keep now gt sid).1.users = db.users ∧
      (signinVerify db email otp keep now gt sid).1.sessions = db.sessions ∧
      (signinVerify db email otp keep now gt sid).2.status = 400 ∧
      (signinVerify db email otp keep now gt sid).2.token = none) := by
  constructor
  · intro hf
    simp [signupVerify, hemail, hotp, hf, h5]
  · intro hf
    cases hu : r.userId.bind (fun uid => db.users.find? (fun u => u.id == uid)) with
    | none => simp [signinVerify, hemail, hotp, hf, hu, Resp.err]
    | some u => simp [signinVerify, hemail, hotp, hf, hu, h5, Resp.err]

/-- Witness for C3: a live SIGNUP OTP and a live SIGNIN OTP, both with the
matching code "123456" and attempts = 5. -/
theorem attempt_limit_rejects_witness :
    (("a@b.c" : String) ≠ "" ∧ ("123456" : String) ≠ "" ∧
      5 ≤ (⟨10, "123456", "a@b.c", OtpType.SIGNUP, 1000, false, 5, none,
        some ⟨"A", "a@b.c", "2000"⟩⟩ : Otp).attempts) ∧
    ((findOtp (DB.mk []
        [⟨10, "123456", "a@b.c", OtpType.SIGNUP, 1000, false, 5, none,
          some ⟨"A", "a@b.c", "2000"⟩⟩] [] [])
        "a@b.c" "123456" OtpType.SIGNUP 0 =
        some ⟨10, "123456", "a@b.c", OtpType.SIGNUP, 1000, false, 5, none,
          some ⟨"A", "a@b.c", "2000"⟩⟩ →
      signupVerify (DB.mk []
        [⟨10, "123456", "a@b.c", OtpType.SIGNUP, 1000, false, 5, none,
          some ⟨"A", "a@b.c", "2000"⟩⟩] [] [])
        "a@b.c" "123456" 0 (fun _ => "tok") 1 100 =
        (DB.mk []
          [⟨10, "123456", "a@b.c", OtpType.SIGNUP, 1000, false, 5, none,
            some ⟨"A", "a@b.c", "2000"⟩⟩] [] [],
         Resp.err 400 "Too many attempts. Please request a new OTP.")) ∧
    (findOtp (DB.mk []
        [⟨10, "123456", "a@b.c", OtpType.SIGNUP, 1000, false, 5, none,
          some ⟨"A", "a@b.c", "2000"⟩⟩] [] [])
        "a@b.c" "123456" OtpType.SIGNIN 0 =
        some ⟨10, "123456", "a@b.c", OtpType.SIGNUP, 1000, false, 5, none,
          some ⟨"A", "a@b.c", "2000"⟩⟩ →
      (signinVerify (DB.mk []
        [⟨10, "123456", "a@b.c", OtpType.SIGNUP, 1000, false, 5, none,
          some ⟨"A", "a@b.c", "2000"⟩⟩] [] [])
        "a@b.c" "123456" false 0 (fun _ => "tok") 100).1.users = [] ∧
      (signinVerify (DB.mk []
        [⟨10, "123456", "a@b.c", OtpType.SIGNUP, 1000, false, 5, none,
          some ⟨"A", "a@b.c", "2000"⟩⟩] [] [])
        "a@b.c" "123456" false 0 (fun _ => "tok") 100).1.sessions = [] ∧
      (signinVerify (DB.mk []
        [⟨10, "123456", "a@b.c", OtpType.SIGNUP, 1000, false, 5, none,
          some ⟨"A", "a@b.c", "2000"⟩⟩] [] [])
        "a@b.c" "123456" false 0 (fun _ => "tok") 100).2.status = 400 ∧
      (signinVerify (DB.mk []
        [⟨10, "123456", "a@b.c", OtpType.SIGNUP, 1000, false, 5, none,
          some ⟨"A", "a@b.c", "2000"⟩⟩] [] [])
        "a@b.c" "123456" false 0 (fun _ => "tok") 100).2.token = none)) :=
  ⟨⟨by decide, by decide, by decide⟩,
   attempt_limit_rejects (DB.mk []
      [⟨10, "123456", "a@b.c", OtpType.SIGNUP, 1000, false, 5, none,
        some ⟨"A", "a@b.c", "2000"⟩⟩] [] [])
     "a@b.c" "123456" false 0 (fun _ => "tok") 1 100
     ⟨10, "123456", "a@b.c", OtpType.SIGNUP, 1000, false, 5, none,
       some ⟨"A", "a@b.c", "2000"⟩⟩
     (by decide) (by decide) (by decide)⟩

/-! ## C4: signup verification is transactional -/

/-- C4: creating the user row and marking the signup OTP verified happen
inside one wrapped transaction; if either write fails, the transaction
yields none, the handler answers 500 and neither the user row nor the OTP
update persists; if it succeeds, both changes persist together. -/
theorem signup_verify_transactional (db : DB) (email otp : String)
    (now : Time) (gt : Nat → String) (nuid sid : Nat) (r : Otp)
    (sd : SignupData) (txres : Option (DB × User))
    (hemail : email ≠ "") (hotp : otp ≠ "")
    (hfind : findOtp db email otp OtpType.SIGNUP now = some r)
    (hatt : r.attempts < 5) (hsd : r.signupData = some sd)
    (htx : txSignupVerify db sd nuid r.id = txres) :
    match txres with
    | none => signupVerify db email otp now gt nuid sid =
        (db, Resp.err 500 "Verification failed")
    | some (db1, u) =>
        db1.users = db.users ++ [u] ∧
        db1.otps = db.otps.map (fun o => if o.id == r.id then
          { o with verified := true, userId := some nuid } else o) ∧
        db1.sessions = db.sessions ∧
        signupVerify db email otp now gt nuid sid =
          ({ db1 with sessions := db1.sessions ++
              [⟨sid, u.id, gt u.id, now + 30 * 24 * 60 * 60 * 1000, true⟩] },
           Resp.ok (some (gt u.id))) := by
  have hatt' : ¬ 5 ≤ r.attempts := Nat.not_le.mpr hatt
  cases txres with
  | none =>
    simp only []
    simp [signupVerify, hemail, hotp, hfind, hatt', hsd, htx]
  | some p =>
    obtain ⟨db1, u⟩ := p
    simp only []
    have hrun : signupVerify db email otp now gt nuid sid =
        ({ db1 with sessions := db1.sessions ++
            [⟨sid, u.id, gt u.id, now + 30 * 24 * 60 * 60 * 1000, true⟩] },
         Resp.ok (some (gt u.id))) := by
      simp [signupVerify, hemail, hotp, hfind, hatt', hsd, htx]
    rw [txSignupVerify] at htx
    by_cases hdup : db.users.any (fun u => u.email == sd.email)
    · rw [if_pos hdup] at htx
      exact absurd htx (by simp)
    · rw [if_neg hdup] at htx
      by_cases hoid : db.otps.any (fun o => o.id == r.id)
      · rw [if_pos hoid] at htx
        have hinj := Option.some.inj htx
        have hdb1 := congrArg Prod.fst hinj
        have hu := congrArg Prod.snd hinj
        simp only [] at hdb1 hu
        refine ⟨?_, ?_, ?_, hrun⟩
        · rw [← hdb1, ← hu]
        · rw [← hdb1]
        · rw [← hdb1]
      · rw [if_neg hoid] at htx
        exact absurd htx (by simp)

/-- Witness for C4: the transaction fails because a user row with the
OTP's signupData email already exists (the `users.email` unique
constraint), so the handler answers 500 and the database is unchanged. -/
theorem signup_verify_transactional_witness :
    (("a@b.c" : String) ≠ "" ∧ ("123456" : String) ≠ "" ∧
      findOtp (DB.mk [⟨1, "a@b.c", "A", "2000", true, true⟩]
        [⟨10, "123456", "a@b.c", OtpType.SIGNUP, 1000, false, 0, none,
          some ⟨"A", "a@b.c", "2000"⟩⟩] [] [])
        "a@b.c" "123456" OtpType.SIGNUP 0 =
        some ⟨10, "123456", "a@b.c", OtpType.SIGNUP, 1000, false, 0, none,
          some ⟨"A", "a@b.c", "2000"⟩⟩ ∧
      (⟨10, "123456", "a@b.c", OtpType.SIGNUP, 1000, false, 0, none,
        some ⟨"A", "a@b.c", "2000"⟩⟩ : Otp).attempts < 5 ∧
      txSignupVerify (DB.mk [⟨1, "a@b.c", "A", "2000", true, true⟩]
        [⟨10, "123456", "a@b.c", OtpType.SIGNUP, 1000, false, 0, none,
          some ⟨"A", "a@b.c", "2000"⟩⟩] [] [])
        ⟨"A", "a@b.c", "2000"⟩ 2 10 = none) ∧
    signupVerify (DB.mk [⟨1, "a@b.c", "A", "2000", true, true⟩]
        [⟨10, "123456", "a@b.c", OtpType.SIGNUP, 1000, false, 0, none,
          some ⟨"A", "a@b.c", "2000"⟩⟩] [] [])
        "a@b.c" "123456" 0 (fun _ => "tok") 2 100 =
      (DB.mk [⟨1, "a@b.c", "A", "2000", true, true⟩]
        [⟨10, "123456", "a@b.c", OtpType.SIGNUP, 1000, false, 0, none,
          some ⟨"A", "a@b.c", "2000"⟩⟩] [] [],
       Resp.err 500 "Verification failed") :=
  ⟨⟨by decide, by decide, by decide, by decide, by decide⟩,
   signup_verify_transactional (DB.mk [⟨1, "a@b.c", "A", "2000", true, true⟩]
      [⟨10, "123456", "a@b.c", OtpType.SIGNUP, 1000, false, 0, none,
        some ⟨"A", "a@b.c", "2000"⟩⟩] [] [])
     "a@b.c" "123456" 0 (fun _ => "tok") 2 100
     ⟨10, "123456", "a@b.c", OtpType.SIGNUP, 1000, false, 0, none,
       some ⟨"A", "a@b.c", "2000"⟩⟩
     ⟨"A", "a@b.c", "2000"⟩ none
     (by decide) (by decide) (by decide) (by decide) (by decide) (by decide)⟩

/-! ## C7: session issuance on signin verification -/

/-- C7: every successful POST /api/signin/verify creates exactly one session
for the OTP's user and returns its token; the session's expiresAt is 30 days
from now when keepLoggedIn is true and 24 hours from now otherwise. -/
theorem signin_verify_creates_one_session (db : DB) (email otp : String)
    (keep : Bool) (now : Time) (gt : Nat → String) (sid uid : Nat)
    (r : Otp) (u : User)
    (hemail : email ≠ "") (hotp : otp ≠ "")
    (hfind : findOtp db email otp OtpType.SIGNIN now = some r)
    (huid : r.userId = some uid)
    (hu : db.users.find? (fun x => x.id == uid) = some u)
    (hatt : r.attempts < 5) :
    (signinVerify db email otp keep now gt sid).1.sessions =
      db.sessions ++ [⟨sid, u.id, gt u.id,
        if keep then now + 30 * 24 * 60 * 60 * 1000
        else now + 24 * 60 * 60 * 1000, true⟩] ∧
    (signinVerify db email otp keep now gt sid).2 =
      Resp.ok (some (gt u.id)) := by
  have hatt' : ¬ 5 ≤ r.attempts := Nat.not_le.mpr hatt
  have hb : r.userId.bind (fun v => db.users.find? (fun x => x.id == v)) =
      some u := by
    rw [huid]
    exact hu
  constructor <;> simp [signinVerify, hemail, hotp, hfind, hb, hatt']

/-- Witness for C7: a live SIGNIN OTP linked to user 1, verified with the
matching code and keepLoggedIn = false. -/
theorem signin_verify_creates_one_session_witness :
    (("a@b.c" : String) ≠ "" ∧ ("123456" : String) ≠ "" ∧
      findOtp (DB.mk [⟨1, "x@y.z", "U", "1990", true, true⟩]
        [⟨10, "123456", "a@b.c", OtpType.SIGNIN, 1000, false, 0, some 1, none⟩]
        [] []) "a@b.c" "123456" OtpType.SIGNIN 0 =
        some ⟨10, "123456", "a@b.c", OtpType.SIGNIN, 1000, false, 0, some 1, none⟩ ∧
      ((⟨10, "123456", "a@b.c", OtpType.SIGNIN, 1000, false, 0, some 1,
          none⟩ : Otp).userId = some 1) ∧
      (DB.mk [⟨1, "x@y.z", "U", "1990", true, true⟩]
        [⟨10, "123456", "a@b.c", OtpType.SIGNIN, 1000, false, 0, some 1, none⟩]
        [] []).users.find? (fun x => x.id == 1) =
        some ⟨1, "x@y.z", "U", "1990", true, true⟩ ∧
      (⟨10, "123456", "a@b.c", OtpType.SIGNIN, 1000, false, 0, some 1,
        none⟩ : Otp).attempts < 5) ∧
    ((signinVerify (DB.mk [⟨1, "x@y.z", "U", "1990", true, true⟩]
        [⟨10, "123456", "a@b.c", OtpType.SIGNIN, 1000, false, 0, some 1, none⟩]
        [] []) "a@b.c" "123456" false 0 (fun _ => "tok") 100).1.sessions =
      [] ++ [⟨100, 1, "tok",
        if false then 0 + 30 * 24 * 60 * 60 * 1000
        else 0 + 24 * 60 * 60 * 1000, true⟩] ∧
    (signinVerify (DB.mk [⟨1, "x@y.z", "U", "1990", true, true⟩]
        [⟨10, "123456", "a@b.c", OtpType.SIGNIN, 1000, false, 0, some 1, none⟩]
        [] []) "a@b.c" "123456" false 0 (fun _ => "tok") 100).2 =
      Resp.ok (some "tok")) :=
  ⟨⟨by decide, by decide, by decide, by decide, by decide, by decide⟩,
   signin_verify_creates_one_session
     (DB.mk [⟨1, "x@y.z", "U", "1990", true, true⟩]
       [⟨10, "123456", "a@b.c", OtpType.SIGNIN, 1000, false, 0, some 1, none⟩]
       [] []) "a@b.c" "123456" false 0 (fun _ => "tok") 100 1
     ⟨10, "123456", "a@b.c", OtpType.SIGNIN, 1000, false, 0, some 1, none⟩
     ⟨1, "x@y.z", "U", "1990", true, true⟩
     (by decide) (by decide) (by decide) (by decide) (by decide) (by decide)⟩

/-! ## C6: OTPs are single-use -/

/-- Each (email, type) pair identifies at most one OTP row (the invariant
that issuance maintains, see C9). -/
abbrev OtpKeyUnique (otps : List Otp) : Prop :=
  ∀ o1 ∈ otps, ∀ o2 ∈ otps, o1.email = o2.email → o1.otype = o2.otype → o1 = o2

/-- What a successful `findFirst` of the verify endpoints says about the
record it returns. -/
theorem findOtp_spec (db : DB) (email otp : String) (t : OtpType)
    (now : Time) (r : Otp) (h : findOtp db email otp t now = some r) :
    r ∈ db.otps ∧ r.email = normEmail email ∧ r.code = jsTrim otp ∧
    r.otype = t ∧ r.verified = false ∧ now < r.expiresAt := by
  have hmem := List.mem_of_find?_eq_some h
  have hp := List.find?_some h
  simp only [Bool.and_eq_true, beq_iff_eq, decide_eq_true_eq] at hp
  exact ⟨hmem, hp.1.1.1.1, hp.1.1.1.2, hp.1.1.2, hp.1.2, hp.2⟩

/-- After the matched record is marked verified (by any per-id update that
sets `verified := true` and leaves other rows alone), the same
(email, code, type) query matches nothing, at any later time. -/
theorem findOtp_none_after_verify (db db' : DB) (email otp : String)
    (t : OtpType) (now now2 : Time) (r : Otp) (f : Otp → Otp)
    (hku : OtpKeyUnique db.otps)
    (hfind : findOtp db email otp t now = some r)
    (hdb' : db'.otps = db.otps.map f)
    (hf1 : ∀ o : Otp, o.id = r.id → (f o).verified = true)
    (hf2 : ∀ o : Otp, o.id ≠ r.id → f o = o) :
    findOtp db' email otp t now2 = none := by
  obtain ⟨hmem, he, _, ht, _, _⟩ := findOtp_spec db email otp t now r hfind
  rw [findOtp, hdb', List.find?_eq_none]
  intro o' ho' hp
  simp only [List.mem_map] at ho'
  obtain ⟨o, ho, rfl⟩ := ho'
  simp only [Bool.and_eq_true, beq_iff_eq, decide_eq_true_eq] at hp
  by_cases hid : o.id = r.id
  · have hv := hf1 o hid
    rw [hp.1.2] at hv
    exact absurd hv (by decide)
  · rw [hf2 o hid] at hp
    have heq : o = r := hku o ho r hmem (hp.1.1.1.1.trans he.symm)
      (hp.1.1.2.trans ht.symm)
    exact hid (congrArg Otp.id heq)

/-- C6: OTPs are single-use: once a verification of an OTP succeeds (its
verified flag is set to true), no later verification request with the same
email, code, and type succeeds, because verification only matches records
with verified = false. -/
theorem otp_single_use (db db1s db1u : DB) (email otp : String)
    (keep keep2 : Bool) (now now2 : Time) (gt gt2 : Nat → String)
    (sid sid2 nuid nuid2 : Nat) (tok1 tok2 : String)
    (hku : OtpKeyUnique db.otps) :
    (signinVerify db email otp keep now gt sid =
        (db1s, Resp.ok (some tok1)) →
      signinVerify db1s email otp keep2 now2 gt2 sid2 =
        (db1s, Resp.err 400 "Invalid or expired OTP")) ∧
    (signupVerify db email otp now gt nuid sid =
        (db1u, Resp.ok (some tok2)) →
      signupVerify db1u email otp now2 gt2 nuid2 sid2 =
        (db1u, Resp.err 400 "Invalid or expired OTP")) := by
  constructor
  · -- signin: extract the post-state from the successful first run
    intro hs1
    by_cases hval : email = "" ∨ otp = ""
    · rw [signinVerify, if_pos hval] at hs1
      simp [Resp.err, Resp.ok] at hs1
    rw [signinVerify, if_neg hval] at hs1
    cases hfind : findOtp db email otp OtpType.SIGNIN now with
    | none =>
      rw [hfind] at hs1
      simp [Resp.err, Resp.ok] at hs1
    | some r =>
      rw [hfind] at hs1
      dsimp only at hs1
      cases hb : r.userId.bind (fun v => db.users.find? (fun x => x.id == v)) with
      | none =>
        rw [hb] at hs1
        simp [Resp.err, Resp.ok] at hs1
      | some u =>
        rw [hb] at hs1
        dsimp only at hs1
        by_cases h5 : 5 ≤ r.attempts
        · rw [if_pos h5] at hs1
          simp [Resp.err, Resp.ok] at hs1
        · rw [if_neg h5] at hs1
          have hdb1s := congrArg Prod.fst hs1
          dsimp only at hdb1s
          have hotps : db1s.otps = db.otps.map (fun (o : Otp) =>
              if o.id == r.id then { o with verified := true } else o) := by
            rw [← hdb1s]
          have hnone := findOtp_none_after_verify db db1s email otp
            OtpType.SIGNIN now now2 r _ hku hfind hotps
            (fun o hid => by simp [hid])
            (fun o hid => by simp [hid])
          rw [signinVerify, if_neg hval, hnone]
  · -- signup: extract the post-state from the successful first run
    intro hs2
    by_cases hval : email = "" ∨ otp = ""
    · rw [signupVerify, if_pos hval] at hs2
      simp [Resp.err, Resp.ok] at hs2
    rw [signupVerify, if_neg hval] at hs2
    cases hfind : findOtp db email otp OtpType.SIGNUP now with
    | none =>
      rw [hfind] at hs2
      simp [Resp.err, Resp.ok] at hs2
    | some r =>
      rw [hfind] at hs2
      dsimp only at hs2
      by_cases h5 : 5 ≤ r.attempts
      · rw [if_pos h5] at hs2
        simp [Resp.err, Resp.ok] at hs2
      · rw [if_neg h5] at hs2
        cases hsd : r.signupData with
        | none =>
          rw [hsd] at hs2
          simp [Resp.err, Resp.ok] at hs2
        | some sd =>
          rw [hsd] at hs2
          dsimp only at hs2
          cases htx : txSignupVerify db sd nuid r.id with
          | none =>
            rw [htx] at hs2
            simp [Resp.err, Resp.ok] at hs2
          | some p =>
            obtain ⟨dbt, u⟩ := p
            rw [htx] at hs2
            dsimp only at hs2
            have hdb1u := congrArg Prod.fst hs2
            dsimp only at hdb1u
            rw [txSignupVerify] at htx
            by_cases hdup : db.users.any (fun x => x.email == sd.email)
            · rw [if_pos hdup] at htx
              exact absurd htx (by simp)
            · rw [if_neg hdup] at htx
              by_cases hoid : db.otps.any (fun o => o.id == r.id)
              · rw [if_pos hoid] at htx
                have hdbt := congrArg Prod.fst (Option.some.inj htx)
                dsimp only at hdbt
                have hotps : db1u.otps = db.otps.map (fun (o : Otp) =>
                    if o.id == r.id then
                      { o with verified := true, userId := some nuid }
                    else o) := by
                  rw [← hdb1u, ← hdbt]
                have hnone := findOtp_none_after_verify db db1u email otp
                  OtpType.SIGNUP now now2 r _ hku hfind hotps
                  (fun o hid => by simp [hid])
                  (fun o hid => by simp [hid])
                rw [signupVerify, if_neg hval, hnone]
              · rw [if_neg hoid] at htx
                exact absurd htx (by simp)

/-- Concrete state for the C6 witness: one user, a live SIGNIN OTP linked
to that user, and a live SIGNUP OTP for a fresh email, both with code
"111111". -/
def c6db : DB := DB.mk [⟨1, "x@y.z", "U", "1990", true, true⟩]
  [⟨10, "111111", "a@b.c", OtpType.SIGNIN, 1000, false, 0, some 1, none⟩,
   ⟨11, "111111", "a@b.c", OtpType.SIGNUP, 1000, false, 0, none,
     some ⟨"N", "new@q.r", "2000"⟩⟩]
  [] []

/-- `c6db` after the signin verification succeeded. -/
def c6dbS : DB := DB.mk [⟨1, "x@y.z", "U", "1990", true, true⟩]
  [⟨10, "111111", "a@b.c", OtpType.SIGNIN, 1000, true, 0, some 1, none⟩,
   ⟨11, "111111", "a@b.c", OtpType.SIGNUP, 1000, false, 0, none,
     some ⟨"N", "new@q.r", "2000"⟩⟩]
  [⟨100, 1, "tok", 86400000, true⟩] []

/-- `c6db` after the signup verification succeeded. -/
def c6dbU : DB := DB.mk
  [⟨1, "x@y.z", "U", "1990", true, true⟩, ⟨2, "new@q.r", "N", "2000", true, true⟩]
  [⟨10, "111111", "a@b.c", OtpType.SIGNIN, 1000, false, 0, some 1, none⟩,
   ⟨11, "111111", "a@b.c", OtpType.SIGNUP, 1000, true, 0, some 2,
     some ⟨"N", "new@q.r", "2000"⟩⟩]
  [⟨100, 2, "tok", 2592000000, true⟩] []

/-- Witness for C6: both verifications succeed on `c6db`, and repeating
each of them against its own resulting state is rejected (each implication
of the theorem is applied to its concretely discharged antecedent). -/
theorem otp_single_use_witness :
    (OtpKeyUnique c6db.otps ∧
     signinVerify c6db "a@b.c" "111111" false 0 (fun _ => "tok") 100 =
       (c6dbS, Resp.ok (some "tok")) ∧
     signupVerify c6db "a@b.c" "111111" 0 (fun _ => "tok") 2 100 =
       (c6dbU, Resp.ok (some "tok"))) ∧
    (signinVerify c6dbS "a@b.c" "111111" true 5 (fun _ => "tok2") 200 =
       (c6dbS, Resp.err 400 "Invalid or expired OTP") ∧
     signupVerify c6dbU "a@b.c" "111111" 5 (fun _ => "tok2") 3 200 =
       (c6dbU, Resp.err 400 "Invalid or expired OTP")) :=
  ⟨⟨by decide, by decide, by decide⟩,
   (otp_single_use c6db c6dbS c6dbU "a@b.c" "111111" false true 0 5
     (fun _ => "tok") (fun _ => "tok2") 100 200 2 3 "tok" "tok"
     (by decide)).1 (by decide),
   (otp_single_use c6db c6dbS c6dbU "a@b.c" "111111" false true 0 5
     (fun _ => "tok") (fun _ => "tok2") 100 200 2 3 "tok" "tok"
     (by decide)).2 (by decide)⟩

/-! ## C9: at most one OTP row per (email, type) pair -/

/-- At most one OTP row per (email, type) key: any two distinct rows differ
in email or in type. -/
abbrev OtpKeyAtMostOne (otps : List Otp) : Prop :=
  otps.Pairwise (fun a b => a.email ≠ b.email ∨ a.otype ≠ b.otype)

/-- Deleting rows (`deleteMany` and the expired-OTP cleanup are filters)
preserves the key invariant. -/
theorem keyAtMostOne_filter (otps : List Otp) (p : Otp → Bool)
    (h : OtpKeyAtMostOne otps) : OtpKeyAtMostOne (otps.filter p) :=
  List.Pairwise.sublist (List.filter_sublist otps) h

/-- Per-row updates that keep email and type (all `update` calls of the
handlers do) preserve the key invariant. -/
theorem keyAtMostOne_map (otps : List Otp) (f : Otp → Otp)
    (hf : ∀ o : Otp, (f o).email = o.email ∧ (f o).otype = o.otype)
    (h : OtpKeyAtMostOne otps) : OtpKeyAtMostOne (otps.map f) := by
  rw [OtpKeyAtMostOne, List.pairwise_map]
  refine h.imp ?_
  intro a b hab
  rcases hab with h1 | h2
  · exact Or.inl (by rw [(hf a).1, (hf b).1]; exact h1)
  · exact Or.inr (by rw [(hf a).2, (hf b).2]; exact h2)

/-- Deleting every row with the issued key and then inserting one row with
that key preserves the key invariant — the delete-then-create pattern of all
three issuance endpoints. -/
theorem keyAtMostOne_issue (otps : List Otp) (e : String) (t : OtpType)
    (o : Otp) (he : o.email = e) (ht : o.otype = t)
    (h : OtpKeyAtMostOne otps) :
    OtpKeyAtMostOne
      ((otps.filter (fun x => ¬ (x.email == e && x.otype == t))) ++ [o]) := by
  rw [OtpKeyAtMostOne, List.pairwise_append]
  refine ⟨keyAtMostOne_filter otps _ h, List.pairwise_singleton _ _, ?_⟩
  intro a ha b hb
  rw [List.mem_singleton] at hb
  subst hb
  have hm := List.of_mem_filter ha
  by_cases hae : a.email = e
  · right
    rw [ht]
    intro hot
    simp [hae, hot] at hm
  · left
    rw [he]
    exact hae

/-- The otps table of the state a successful signup-verification
transaction commits. -/
theorem txSignupVerify_otps (db : DB) (sd : SignupData) (nuid oid : Nat)
    (db1 : DB) (u : User) (h : txSignupVerify db sd nuid oid = some (db1, u)) :
    db1.otps = db.otps.map (fun o => if o.id == oid then
      { o with verified := true, userId := some nuid } else o) := by
  rw [txSignupVerify] at h
  by_cases h1 : db.users.any (fun x => x.email == sd.email)
  · rw [if_pos h1] at h
    exact absurd h (by simp)
  · rw [if_neg h1] at h
    by_cases h2 : db.otps.any (fun o => o.id == oid)
    · rw [if_pos h2] at h
      have h3 := congrArg Prod.fst (Option.some.inj h)
      dsimp only at h3
      rw [← h3]
    · rw [if_neg h2] at h
      exact absurd h (by simp)

/-- A successful signup-verification transaction preserves the key
invariant: its only write to the otps table is a per-id update. -/
theorem txSignupVerify_keyAtMostOne (db : DB) (sd : SignupData)
    (nuid oid : Nat) (db1 : DB) (u : User)
    (hinv : OtpKeyAtMostOne db.otps)
    (h : txSignupVerify db sd nuid oid = some (db1, u)) :
    OtpKeyAtMostOne db1.otps := by
  rw [txSignupVerify_otps db sd nuid oid db1 u h]
  refine keyAtMostOne_map _ _ ?_ hinv
  intro o
  constructor <;> (split <;> rfl)

/-- C9: at most one OTP record exists per (email, type) pair at any time:
every OTP issuance operation (signup, signin, signin/resend) deletes all
existing OTPs with the same normalized email and type before creating the
new one, and every other operation touching the otps table (the two verify
endpoints, including the cleanup and per-id updates they perform) preserves
the invariant as well. -/
theorem otp_key_at_most_one_invariant (db : DB)
    (name email dob code otp : String) (oid nuid sid : Nat)
    (now : Time) (eok keep : Bool) (gt : Nat → String)
    (hinv : OtpKeyAtMostOne db.otps) :
    OtpKeyAtMostOne (signup db name email dob code oid now eok).1.otps ∧
    OtpKeyAtMostOne (signin db email code oid now eok).1.otps ∧
    OtpKeyAtMostOne (signinResend db email code oid now eok).1.otps ∧
    OtpKeyAtMostOne (signupVerify db email otp now gt nuid sid).1.otps ∧
    OtpKeyAtMostOne (signinVerify db email otp keep now gt sid).1.otps := by
  refine ⟨?_, ?_, ?_, ?_, ?_⟩
  · rw [signup]
    split
    · exact hinv
    · dsimp only [cleanupExpiredOtps]
      split
      · exact keyAtMostOne_filter _ _ hinv
      · exact keyAtMostOne_issue _ _ _ _ rfl rfl
          (keyAtMostOne_filter _ _ hinv)
  · rw [signin]
    split
    · exact hinv
    · dsimp only [cleanupExpiredOtps]
      split
      · exact keyAtMostOne_filter _ _ hinv
      · split
        · exact keyAtMostOne_filter _ _ hinv
        · split
          · exact keyAtMostOne_filter _ _ hinv
          · exact keyAtMostOne_issue _ _ _ _ rfl rfl
              (keyAtMostOne_filter _ _ hinv)
  · rw [signinResend]
    split
    · exact hinv
    · dsimp only [cleanupExpiredOtps]
      split
      · exact keyAtMostOne_filter _ _ hinv
      · split
        · exact keyAtMostOne_filter _ _ hinv
        · split
          · exact keyAtMostOne_filter _ _ hinv
          · exact keyAtMostOne_issue _ _ _ _ rfl rfl
              (keyAtMostOne_filter _ _ hinv)
  · rw [signupVerify]
    split
    · exact hinv
    · split
      · exact hinv
      · split
        · exact hinv
        · split
          · exact hinv
          · split
            · exact hinv
            · dsimp only
              exact txSignupVerify_keyAtMostOne _ _ _ _ _ _ hinv
                (by assumption)
  · rw [signinVerify]
    split
    · exact hinv
    · split
      · exact hinv
      · split
        · dsimp only
          refine keyAtMostOne_map _ _ ?_ hinv
          intro o
          constructor <;> (split <;> rfl)
        · split
          · exact hinv
          · dsimp only
            refine keyAtMostOne_map _ _ ?_ hinv
            intro o
            constructor <;> (split <;> rfl)

/-- Witness for C9 from the empty database. -/
theorem otp_key_at_most_one_invariant_witness :
    OtpKeyAtMostOne (DB.mk [] [] [] []).otps ∧
    (OtpKeyAtMostOne
        (signup (DB.mk [] [] [] []) "N" "a@b.c" "2000" "222222" 20 0 true).1.otps ∧
      OtpKeyAtMostOne
        (signin (DB.mk [] [] [] []) "a@b.c" "222222" 20 0 true).1.otps ∧
      OtpKeyAtMostOne
        (signinResend (DB.mk [] [] [] []) "a@b.c" "222222" 20 0 true).1.otps ∧
      OtpKeyAtMostOne
        (signupVerify (DB.mk [] [] [] []) "a@b.c" "123456" 0
          (fun _ => "tok") 2 100).1.otps ∧
      OtpKeyAtMostOne
        (signinVerify (DB.mk [] [] [] []) "a@b.c" "123456" false 0
          (fun _ => "tok") 100).1.otps) :=
  ⟨by decide,
   otp_key_at_most_one_invariant (DB.mk [] [] [] []) "N" "a@b.c" "2000"
     "222222" "123456" 20 2 100 0 true false (fun _ => "tok") (by decide)⟩

/-! ## C8: how many ORM calls a handler issues -/

/-- C8 counterexample: POST /api/signup on an empty database with a valid
body issues four ORM calls in one request — expired-OTP cleanup deleteMany,
user findUnique, otp deleteMany, otp create — none of them a transaction,
so the handler issues more than one non-transactional ORM call. -/
theorem single_orm_call_cex :
    (signup (DB.mk [] [] [] []) "N" "a@b.c" "2000" "222222" 20 0 true).2.2 =
      [OrmCall.otpDeleteMany, OrmCall.userFindUnique,
       OrmCall.otpDeleteMany, OrmCall.otpCreate] ∧
    ¬ (((signup (DB.mk [] [] [] []) "N" "a@b.c" "2000" "222222" 20 0
        true).2.2.filter (fun c => ¬ c.transactional)).length ≤ 1) := by
  decide

/-- C8 (amended): not every API operation is one ORM call: whenever the
body validation passes, POST /api/signup (no user row for the email) and
POST /api/signin (a verified, active user row exists) each issue exactly
four ORM calls per request — expired-OTP cleanup deleteMany, user
findUnique, otp deleteMany, otp create — and none of the calls either
handler issues on any path is a multi-statement transaction. -/
theorem issuance_handlers_issue_four_orm_calls (db : DB)
    (name email dob code : String) (oid : Nat) (now : Time) (eok : Bool)
    (u : User)
    (hname : name ≠ "") (hemail : email ≠ "") (hdob : dob ≠ "") :
    ((cleanupExpiredOtps db now).users.find?
        (fun x => x.email == normEmail email) = none →
      (signup db name email dob code oid now eok).2.2 =
        [OrmCall.otpDeleteMany, OrmCall.userFindUnique,
         OrmCall.otpDeleteMany, OrmCall.otpCreate]) ∧
    ((cleanupExpiredOtps db now).users.find?
        (fun x => x.email == normEmail email) = some u →
      u.verified = true → u.isActive = true →
      (signin db email code oid now eok).2.2 =
        [OrmCall.otpDeleteMany, OrmCall.userFindUnique,
         OrmCall.otpDeleteMany, OrmCall.otpCreate]) ∧
    ((signup db name email dob code oid now eok).2.2.filter
      (fun c => c.transactional)).length = 0 ∧
    ((signin db email code oid now eok).2.2.filter
      (fun c => c.transactional)).length = 0 := by
  refine ⟨?_, ?_, ?_, ?_⟩
  · intro hnone
    simp [signup, hname, hemail, hdob, hnone]
  · intro hsome hver hact
    simp [signin, hemail, hsome, hver, hact]
  · rw [signup]
    split
    · rfl
    · dsimp only
      split <;> rfl
  · rw [signin]
    split
    · rfl
    · dsimp only
      split
      · rfl
      · split
        · rfl
        · split <;> rfl

/-- Witness for the amended C8, instantiated at the empty database (where
the signup-side hypothesis holds concretely). -/
theorem issuance_handlers_issue_four_orm_calls_witness :
    (("N" : String) ≠ "" ∧ ("a@b.c" : String) ≠ "" ∧
      ("2000" : String) ≠ "") ∧
    (((cleanupExpiredOtps (DB.mk [] [] [] []) 0).users.find?
        (fun x => x.email == normEmail "a@b.c") = none →
      (signup (DB.mk [] [] [] []) "N" "a@b.c" "2000" "222222" 20 0 true).2.2 =
        [OrmCall.otpDeleteMany, OrmCall.userFindUnique,
         OrmCall.otpDeleteMany, OrmCall.otpCreate]) ∧
    ((cleanupExpiredOtps (DB.mk [] [] [] []) 0).users.find?
        (fun x => x.email == normEmail "a@b.c") =
          some ⟨1, "a@b.c", "A", "2000", true, true⟩ →
      (⟨1, "a@b.c", "A", "2000", true, true⟩ : User).verified = true →
      (⟨1, "a@b.c", "A", "2000", true, true⟩ : User).isActive = true →
      (signin (DB.mk [] [] [] []) "a@b.c" "222222" 20 0 true).2.2 =
        [OrmCall.otpDeleteMany, OrmCall.userFindUnique,
         OrmCall.otpDeleteMany, OrmCall.otpCreate]) ∧
    ((signup (DB.mk [] [] [] []) "N" "a@b.c" "2000" "222222" 20 0
      true).2.2.filter (fun c => c.transactional)).length = 0 ∧
    ((signin (DB.mk [] [] [] []) "a@b.c" "222222" 20 0 true).2.2.filter
      (fun c => c.transactional)).length = 0) :=
  ⟨⟨by decide, by decide, by decide⟩,
   issuance_handlers_issue_four_orm_calls (DB.mk [] [] [] [])
     "N" "a@b.c" "2000" "222222" 20 0 true
     ⟨1, "a@b.c", "A", "2000", true, true⟩
     (by decide) (by decide) (by decide)⟩

end NotesWeb
